import Mathlib

/-!
Verification development for the Orifice-Chamber cleaning simulator.

The Python sources under src/ are embedded shallowly: pure numeric code
becomes functions over ℝ (idealised real arithmetic; IEEE rounding is not
modelled), Python floats that can become NaN or raise on a division by
zero are modelled with Option, and the mutation of the tracker object by
particle_motion is modelled by explicit state passing.  Random draws
(numpy.random) are modelled as explicit oracle parameters.
-/

namespace OrificeChamber

/-! ### Constants, from src/utils/constants.py -/

def GRAVITY : ℝ := -9.81

def INLET_DIAMETER : ℝ := 2558

def GRID_DIAMETER : ℝ := 3800

def CHAMBER_HEIGHT : ℝ := 12000

def HOLE_DIAMETER : ℝ := 50.0

def PATTERN_RADIUS : ℝ := 1900

def MIN_HOLES_PER_RING : ℤ := 8

def PATTERN_SPACING : ℝ := 1.5

def INLET_TEMP : ℝ := 715 + 273.15

def PRESSURE : ℝ := 1.52 * 98066.5

def INLET_VELOCITY : ℝ := 17.45

def GAS_CONSTANT : ℝ := 287.05

def REFERENCE_VISCOSITY : ℝ := 1.458e-6

def SUTHERLAND_TEMP : ℝ := 110.4

/-- DEPOSIT_PROPERTIES moisture entry (0.85 percent by weight). -/
def DEPOSIT_moisture : ℝ := 0.0085

/-- DEPOSIT_PROPERTIES adhesion_strength entry, Pa. -/
def DEPOSIT_adhesion_strength : ℝ := 150000

/-- Lower end of the DEPOSIT_PROPERTIES thickness_range entry, metres. -/
def DEPOSIT_thickness_min : ℝ := 0.001

/-- GRID_POSITIONS[0], the relative height of the first grid. -/
def GRID_POSITION_0 : ℝ := 0.8

/-! ### Fluid helpers, from src/utils/helpers.py -/

/-- calculate_fluid_density: ideal gas law, pressure / (R * temperature). -/
noncomputable def calculate_fluid_density (pressure temperature : ℝ) : ℝ :=
  pressure / (GAS_CONSTANT * temperature)

/-- calculate_fluid_viscosity: Sutherland law,
REFERENCE_VISCOSITY * temperature ** 1.5 / (temperature + SUTHERLAND_TEMP). -/
noncomputable def calculate_fluid_viscosity (temperature : ℝ) : ℝ :=
  REFERENCE_VISCOSITY * temperature ^ (1.5 : ℝ) / (temperature + SUTHERLAND_TEMP)

/-- calculate_discharge_coefficient: 0.5 below Re = 2000, 0.61 above
Re = 20000, linear interpolation in between. -/
noncomputable def calculate_discharge_coefficient (reynolds_number : ℝ) : ℝ :=
  if reynolds_number < 2000 then 0.5
  else if reynolds_number > 20000 then 0.61
  else 0.5 + (reynolds_number - 2000) * (0.11 / 18000)

/-! ### Radial hole pattern, from src/utils/helpers.py generate_radial_pattern -/

/-- Python int() applied to a float: truncation toward zero. -/
noncomputable def pyInt (x : ℝ) : ℤ :=
  if 0 ≤ x then ⌊x⌋ else -⌊-x⌋

/-- The holes placed on one ring: holes_in_ring points at equal angular
spacing i * (2π / holes_in_ring) on the circle of radius current_radius. -/
noncomputable def placeRing (current_radius : ℝ) (k : ℕ) : List (ℝ × ℝ) :=
  (List.range k).map fun i : ℕ =>
    (current_radius * Real.cos ((i : ℝ) * (2 * Real.pi / k)),
     current_radius * Real.sin ((i : ℝ) * (2 * Real.pi / k)))

/-- The ring loop of generate_radial_pattern.  For each ring index the hole
count is min(max(MIN_HOLES_PER_RING*(ring+1), int(circumference /
(radius/num_rings) / PATTERN_SPACING)), remaining); a non-positive count
breaks out of the loop, otherwise the holes are placed and the remaining
counter decreases by the number placed. -/
noncomputable def radialRings (radius : ℝ) (num_rings : ℕ) :
    ℕ → List ℕ → List (ℝ × ℝ)
  | _, [] => []
  | remaining, ring :: rest =>
    let current_radius := radius * (ring + 1) / num_rings
    let circumference := 2 * Real.pi * current_radius
    let holes_in_ring : ℤ :=
      min (max (MIN_HOLES_PER_RING * (ring + 1))
            (pyInt (circumference / (radius / num_rings) / PATTERN_SPACING)))
        (remaining : ℤ)
    if holes_in_ring ≤ 0 then []
    else
      placeRing current_radius holes_in_ring.toNat ++
        radialRings radius num_rings (remaining - holes_in_ring.toNat) rest

/-- generate_radial_pattern(num_holes, radius).  num_rings =
int(sqrt(num_holes)) is the integer square root for natural input. -/
noncomputable def generate_radial_pattern (num_holes : ℕ) (radius : ℝ) :
    List (ℝ × ℝ) :=
  radialRings radius (Nat.sqrt num_holes) num_holes (List.range (Nat.sqrt num_holes))

/-! ### Deposit model, from src/models/deposit.py -/

/-- DepositPoint dataclass: position, thickness, strength, removed
(default False). -/
structure DepositPoint where
  position : ℝ × ℝ × ℝ
  thickness : ℝ
  strength : ℝ
  removed : Bool := false

/-- Euclidean distance between two 3D points, as computed in
DepositModel.check_impact. -/
noncomputable def distance3 (p q : ℝ × ℝ × ℝ) : ℝ :=
  Real.sqrt ((p.1 - q.1) ^ 2 + (p.2.1 - q.2.1) ^ 2 + (p.2.2 - q.2.2) ^ 2)

/-- The 15 mm impact effect radius fixed inside check_impact. -/
def impact_radius : ℝ := 0.015

/-- impact_energy = 0.5 * particle_mass * sum(v**2 for v in velocity). -/
def impactEnergy (mass : ℝ) (velocity : ℝ × ℝ × ℝ) : ℝ :=
  0.5 * mass * (velocity.1 ^ 2 + velocity.2.1 ^ 2 + velocity.2.2 ^ 2)

/-- removal_threshold = strength * (thickness / thickness_range[0]) /
(1.0 + moisture). -/
noncomputable def removalThreshold (d : DepositPoint) : ℝ :=
  d.strength * (d.thickness / DEPOSIT_thickness_min) / (1.0 + DEPOSIT_moisture)

/-- One iteration of the loop body of check_impact for a single deposit:
a deposit already removed is skipped; otherwise, if its distance to the
particle is below impact_radius and the linearly attenuated local energy
exceeds the removal threshold, its removed flag is set.  The Bool is the
contribution to the deposits_removed flag. -/
noncomputable def checkOne (impact_energy : ℝ) (particle_position : ℝ × ℝ × ℝ)
    (d : DepositPoint) : DepositPoint × Bool :=
  if d.removed then (d, false)
  else
    let dist := distance3 particle_position d.position
    if dist < impact_radius then
      let local_energy := impact_energy * (1 - dist / impact_radius)
      if local_energy > removalThreshold d then
        ({ d with removed := true }, true)
      else (d, false)
    else (d, false)

/-- DepositModel.check_impact: the Python loop walks the deposit list in
order, each deposit being updated independently of the others, and the
returned flag is the disjunction of the per-deposit removal flags. -/
noncomputable def check_impact (deposits : List DepositPoint)
    (particle_position particle_velocity : ℝ × ℝ × ℝ) (particle_mass : ℝ) :
    List DepositPoint × Bool :=
  let impact_energy := impactEnergy particle_mass particle_velocity
  (deposits.map fun d => (checkOne impact_energy particle_position d).1,
   deposits.any fun d => (checkOne impact_energy particle_position d).2)

/-- get_deposit_stats removal_percentage entry: removed / total * 100 when
total_deposits > 0, else 0. -/
noncomputable def deposit_stats_removal_percentage (deposits : List DepositPoint) : ℝ :=
  let total_deposits := deposits.length
  let removed_deposits := deposits.countP (·.removed)
  if total_deposits > 0 then (removed_deposits : ℝ) / total_deposits * 100 else 0

/-- DepositAnalyzer.analyze_removal_patterns removal_rate entry:
removed / total when total_deposits > 0, else 0 (src/analysis/analyzer.py). -/
noncomputable def analyze_removal_rate (deposits : List DepositPoint) : ℝ :=
  let total_deposits := deposits.length
  let removed_deposits := deposits.countP (·.removed)
  if total_deposits > 0 then (removed_deposits : ℝ) / total_deposits else 0

/-! ### Deposit initialisation, from src/models/deposit.py -/

/-- np.random.randint(5, 15): a uniform integer in [5, 15).  The draw is
modelled by reducing an oracle natural number modulo the range width, which
realises exactly the possible return values. -/
def randint_5_15 (r : ℕ) : ℕ := 5 + r % 10

/-- add_deposit_cluster: spawns randint(5,15) deposit points around
(x, y, z), each offset by a Gaussian jitter draw and given a drawn
thickness and strength; the removed flag is left at its default false.
The random draws are oracle functions indexed by the point number. -/
def add_deposit_cluster (x y z : ℝ) (size_seed : ℕ)
    (jitter : ℕ → ℝ × ℝ × ℝ) (thickness_draw strength_draw : ℕ → ℝ) :
    List DepositPoint :=
  (List.range (randint_5_15 size_seed)).map fun i =>
    { position := (x + (jitter i).1, y + (jitter i).2.1, z + (jitter i).2.2),
      thickness := thickness_draw i,
      strength := strength_draw i,
      removed := false }

/-- Oracle bundle for one cluster of initialize_deposits: the chosen hole
index and the per-point draws. -/
structure ClusterDraw where
  hole_index : ℕ
  size_seed : ℕ
  jitter : ℕ → ℝ × ℝ × ℝ
  thickness_draw : ℕ → ℝ
  strength_draw : ℕ → ℝ

/-- initialize_deposits for the first grid: np.random.choice(len(positions),
size=num_plugged, replace=False) raises ValueError when num_plugged exceeds
the number of hole positions, modelled as none; otherwise each chosen hole
position seeds one cluster.  The chosen indices returned by choice are
always in range, so position lookup is total via getD. -/
def initialize_deposits (hole_positions : List (ℝ × ℝ × ℝ))
    (num_plugged : ℕ) (draws : ℕ → ClusterDraw) :
    Option (List DepositPoint) :=
  if num_plugged > hole_positions.length then none
  else some ((List.range num_plugged).flatMap fun k =>
    let dr := draws k
    let p := hole_positions.getD dr.hole_index (0, 0, 0)
    add_deposit_cluster p.1 p.2.1 p.2.2 dr.size_seed dr.jitter
      dr.thickness_draw dr.strength_draw)

/-! ### Particle tracker, from src/models/particle.py -/

/-- The chamber fields read by ParticleTracker: geometric constants (mm),
inlet velocity, and the fluid properties computed at construction. -/
structure Chamber where
  chamber_height : ℝ
  grid_diameter : ℝ
  inlet_velocity : ℝ
  fluid_density : ℝ
  fluid_viscosity : ℝ
  grid_position_0 : ℝ

/-- The FCCChamber built from the constant tables: fluid density from the
ideal gas law and viscosity from the Sutherland law at INLET_TEMP. -/
noncomputable def defaultChamber : Chamber where
  chamber_height := CHAMBER_HEIGHT
  grid_diameter := GRID_DIAMETER
  inlet_velocity := INLET_VELOCITY
  fluid_density := calculate_fluid_density PRESSURE INLET_TEMP
  fluid_viscosity := calculate_fluid_viscosity INLET_TEMP
  grid_position_0 := GRID_POSITION_0

/-- The mutable state of a ParticleTracker that particle_motion touches:
the deposit field and the four append-only impact logs, together with the
particle properties set by update_particle_properties. -/
structure Tracker where
  deposits : List DepositPoint
  impacts : List (ℝ × ℝ × ℝ)
  impact_times : List ℝ
  impact_energies : List ℝ
  removal_effectiveness : List Bool
  particle_density : ℝ
  particle_diameter : ℝ
  particle_mass : ℝ
  restitution_coeff : ℝ

/-- particle_mass = π * diameter³ * density / 6
(update_particle_properties). -/
noncomputable def particleMass (density diameter : ℝ) : ℝ :=
  Real.pi * diameter ^ 3 * density / 6

/-- ParticleTracker.check_deposit_impact: delegates to
DepositModel.check_impact; when that reports a removal it appends the
position, time, energy and a removal-effectiveness mark to the logs and
returns the pair (True, [0, 0, 1]); otherwise it returns (False, [0, 0, 0])
without logging. -/
noncomputable def check_deposit_impact (tr : Tracker)
    (position velocity : ℝ × ℝ × ℝ) (t : ℝ) : Tracker × (Bool × List ℤ) :=
  let r := check_impact tr.deposits position velocity tr.particle_mass
  let tr1 := { tr with deposits := r.1 }
  if r.2 then
    let impact_energy := impactEnergy tr.particle_mass velocity
    ({ tr1 with
        impacts := tr1.impacts ++ [position],
        impact_times := tr1.impact_times ++ [t],
        impact_energies := tr1.impact_energies ++ [impact_energy],
        removal_effectiveness := tr1.removal_effectiveness ++ [true] },
     (true, [0, 0, 1]))
  else (tr1, (false, [0, 0, 0]))

/-- Python truthiness of the value returned by check_deposit_impact.  Both
branches return a two-element tuple, and bool() of a non-empty tuple is
True in Python irrespective of its contents, so the caller's
`if impact:` test always passes. -/
def pyTruthy (_v : Bool × List ℤ) : Bool := true

/-- The grid-contact branch at the top of particle_motion: when z is above
the first grid height and vz is negative, check_deposit_impact runs at the
current position/velocity; its (always truthy) tuple result then triggers
the inelastic bounce (vz := -vz * restitution, vx and vy scaled by 0.8) and
a second append of position, time and impact energy to the logs.  Returns
the updated tracker and the (possibly reassigned) local velocities used by
the rest of the derivative evaluation. -/
noncomputable def bounce_step (ch : Chamber) (tr : Tracker)
    (state : ℝ × ℝ × ℝ × ℝ × ℝ × ℝ) (t : ℝ) :
    Tracker × (ℝ × ℝ × ℝ) :=
  let (x, y, z, vx, vy, vz) := state
  let grid_1_height := ch.grid_position_0 * ch.chamber_height / 1000
  if z > grid_1_height ∧ vz < 0 then
    let v_rel := Real.sqrt (vx ^ 2 + vy ^ 2 + vz ^ 2)
    let impact_energy := 0.5 * tr.particle_mass * v_rel ^ 2
    let res := check_deposit_impact tr (x, y, z) (vx, vy, vz) t
    if pyTruthy res.2 then
      ({ res.1 with
          impacts := res.1.impacts ++ [(x, y, z)],
          impact_times := res.1.impact_times ++ [t],
          impact_energies := res.1.impact_energies ++ [impact_energy] },
       (vx * 0.8, vy * 0.8, -vz * tr.restitution_coeff))
    else (res.1, (vx, vy, vz))
  else (tr, (vx, vy, vz))

/-- The drag / gravity part of particle_motion, evaluated with the local
velocities left by the grid-contact branch.  The Schiller-Naumann branch
for Re_p < 0.1 computes 24 / Re_p, which for Re_p = 0 is a division by
zero (in NumPy it yields inf, and the subsequent product with the zero
relative velocity makes every acceleration component NaN); this
ill-defined outcome is modelled as none.  The final clamp zeroes the
vertical derivatives within 0.01 m of the grid while moving downward. -/
noncomputable def drag_deriv (ch : Chamber) (tr : Tracker)
    (state : ℝ × ℝ × ℝ × ℝ × ℝ × ℝ) (v : ℝ × ℝ × ℝ) :
    Option (ℝ × ℝ × ℝ × ℝ × ℝ × ℝ) :=
  let z := state.2.2.1
  let (vx, vy, vz) := v
  let grid_1_height := ch.grid_position_0 * ch.chamber_height / 1000
  let v_rel := Real.sqrt (vx ^ 2 + vy ^ 2 + (vz - ch.inlet_velocity) ^ 2)
  let Re_p := ch.fluid_density * v_rel * tr.particle_diameter / ch.fluid_viscosity
  let CdOpt : Option ℝ :=
    if Re_p < 0.1 then
      if Re_p = 0 then none else some (24 / Re_p)
    else if Re_p < 1000 then
      some (24 / Re_p * (1 + 0.15 * Re_p ^ (0.687 : ℝ)))
    else some 0.44
  CdOpt.map fun Cd =>
    let Fd_coeff := 3 * ch.fluid_density * Cd * v_rel /
      (4 * tr.particle_density * tr.particle_diameter)
    let dvx := -Fd_coeff * vx
    let dvy := -Fd_coeff * vy
    let dvz := GRAVITY - Fd_coeff * (vz - ch.inlet_velocity)
    if |z - grid_1_height| < 0.01 ∧ vz < 0 then
      (vx, vy, 0, dvx, dvy, 0)
    else (vx, vy, vz, dvx, dvy, dvz)

/-- ParticleTracker.particle_motion: the grid-contact branch first (with
its tracker mutations and local velocity reassignment), then the
drag/gravity derivative on the resulting velocities. -/
noncomputable def particle_motion (ch : Chamber) (tr : Tracker)
    (state : ℝ × ℝ × ℝ × ℝ × ℝ × ℝ) (t : ℝ) :
    Option (ℝ × ℝ × ℝ × ℝ × ℝ × ℝ) × Tracker :=
  let s1 := bounce_step ch tr state t
  (drag_deriv ch tr state s1.2, s1.1)

/-! ### Initial conditions, from src/models/particle.py
generate_initial_conditions -/

/-- np.sqrt as applied to a Python float: NaN (modelled none) on negative
input, the real square root otherwise. -/
noncomputable def pySqrt (x : ℝ) : Option ℝ :=
  if x < 0 then none else some (Real.sqrt x)

/-- The spiral branch of generate_initial_conditions.  The random angle is
an explicit parameter.  Position: a point on the ring of radius
grid_diameter / 16000 at height chamber_height / 1000.  Velocity:
vz = -sqrt(2 * GRAVITY * drop_height) where drop_height is the drop from
the chamber top to the first grid, and vx, vy are 0.2 * inlet_velocity
along the angle.  vz is an Option because GRAVITY is the signed constant
-9.81, making the sqrt argument negative for any positive drop height. -/
noncomputable def generate_initial_conditions_spiral (ch : Chamber)
    (angle : ℝ) : (ℝ × ℝ × ℝ) × (ℝ × ℝ × Option ℝ) :=
  let z := ch.chamber_height / 1000
  let radius := ch.grid_diameter / 16000
  let x := radius * Real.cos angle
  let y := radius * Real.sin angle
  let grid_1_z := ch.grid_position_0 * ch.chamber_height / 1000
  let drop_height := z - grid_1_z
  let vz := (pySqrt (2 * GRAVITY * drop_height)).map fun s => -s
  let vx := ch.inlet_velocity * 0.2 * Real.cos angle
  let vy := ch.inlet_velocity * 0.2 * Real.sin angle
  ((x, y, z), (vx, vy, vz))

/-! ### Concrete instances used by the end-to-end claims -/

/-- The tracker as built for the walnut-shell medium: density 640.7,
diameter 0.005, mass from update_particle_properties, and restitution 0.7
(WALNUT_PROPERTIES has no restitution key, so .get falls back to 0.7).
All logs start empty and the deposit field is empty. -/
noncomputable def walnutTracker : Tracker where
  deposits := []
  impacts := []
  impact_times := []
  impact_energies := []
  removal_effectiveness := []
  particle_density := 640.7
  particle_diameter := 0.005
  particle_mass := particleMass 640.7 0.005
  restitution_coeff := 0.7

/-- A deposit of strength 0 sitting at (0, 0, 9.61), just above the first
grid plane, directly on the test particle's path. -/
noncomputable def strengthZeroDeposit : DepositPoint where
  position := (0, 0, 9.61)
  thickness := 0.001
  strength := 0
  removed := false

/-- The walnut tracker with the single strength-zero deposit seeded. -/
noncomputable def guardTracker : Tracker :=
  { walnutTracker with deposits := [strengthZeroDeposit] }

/-! ### Theorems -/

theorem placeRing_length (c : ℝ) (k : ℕ) : (placeRing c k).length = k := by
  unfold placeRing
  rw [List.length_map, List.length_range]

theorem radialRings_length_le (radius : ℝ) (num_rings : ℕ) :
    ∀ (rings : List ℕ) (remaining : ℕ),
      (radialRings radius num_rings remaining rings).length ≤ remaining := by
  intro rings
  induction rings with
  | nil => intro remaining; simp [radialRings]
  | cons ring rest ih =>
    intro remaining
    rw [radialRings]
    split_ifs with h
    · simp
    · have hmin : min (max (MIN_HOLES_PER_RING * (ring + 1))
          (pyInt (2 * Real.pi * (radius * (ring + 1) / num_rings) /
            (radius / num_rings) / PATTERN_SPACING))) (remaining : ℤ) ≤
          (remaining : ℤ) := min_le_right _ _
      rw [List.length_append, placeRing_length]
      have h1 := ih (remaining -
        (min (max (MIN_HOLES_PER_RING * (ring + 1))
          (pyInt (2 * Real.pi * (radius * (ring + 1) / num_rings) /
            (radius / num_rings) / PATTERN_SPACING))) (remaining : ℤ)).toNat)
      omega

/-- C8: generate_radial_pattern with num_holes = 0 returns the empty
coordinate list, and for every num_holes and radius (in particular
num_holes = 285, radius = 1900) the number of placed coordinates never
exceeds num_holes. -/
theorem generate_radial_pattern_shortfall :
    (∀ radius : ℝ, generate_radial_pattern 0 radius = []) ∧
    (∀ (num_holes : ℕ) (radius : ℝ),
      (generate_radial_pattern num_holes radius).length ≤ num_holes) ∧
    (generate_radial_pattern 285 1900).length ≤ 285 := by
  refine ⟨fun radius => by simp [generate_radial_pattern, radialRings],
    fun num_holes radius => radialRings_length_le _ _ _ _, ?_⟩
  exact radialRings_length_le 1900 (Nat.sqrt 285) (List.range (Nat.sqrt 285)) 285

/-- C7: the discharge coefficient is 0.5 below Re = 2000, 0.61 above
Re = 20000, linearly interpolated in between, bounded in [0.5, 0.61] for
Re ≥ 0, and non-decreasing in Re. -/
theorem discharge_coefficient_piecewise_bounded_monotone :
    (∀ Re : ℝ, Re < 2000 → calculate_discharge_coefficient Re = 0.5) ∧
    (∀ Re : ℝ, Re > 20000 → calculate_discharge_coefficient Re = 0.61) ∧
    (∀ Re : ℝ, 2000 ≤ Re → Re ≤ 20000 →
      calculate_discharge_coefficient Re = 0.5 + (Re - 2000) * (0.11 / 18000)) ∧
    (∀ Re : ℝ, 0 ≤ Re →
      0.5 ≤ calculate_discharge_coefficient Re ∧
        calculate_discharge_coefficient Re ≤ 0.61) ∧
    (∀ a b : ℝ, 0 ≤ a → a ≤ b →
      calculate_discharge_coefficient a ≤ calculate_discharge_coefficient b) := by
  have hlow : ∀ Re : ℝ, Re < 2000 → calculate_discharge_coefficient Re = 0.5 := by
    intro Re h
    unfold calculate_discharge_coefficient
    rw [if_pos h]
  have hhigh : ∀ Re : ℝ, Re > 20000 → calculate_discharge_coefficient Re = 0.61 := by
    intro Re h
    unfold calculate_discharge_coefficient
    rw [if_neg (by linarith), if_pos h]
  have hmid : ∀ Re : ℝ, 2000 ≤ Re → Re ≤ 20000 →
      calculate_discharge_coefficient Re = 0.5 + (Re - 2000) * (0.11 / 18000) := by
    intro Re h1 h2
    unfold calculate_discharge_coefficient
    rw [if_neg (by linarith), if_neg (by linarith)]
  have hbound : ∀ Re : ℝ,
      0.5 ≤ calculate_discharge_coefficient Re ∧
        calculate_discharge_coefficient Re ≤ 0.61 := by
    intro Re
    unfold calculate_discharge_coefficient
    split_ifs with h1 h2
    · norm_num
    · norm_num
    · constructor <;> nlinarith
  have hmono : ∀ a b : ℝ, a ≤ b →
      calculate_discharge_coefficient a ≤ calculate_discharge_coefficient b := by
    intro a b hab
    rcases lt_or_le a 2000 with ha | ha
    · rw [hlow a ha]
      exact (hbound b).1
    · rcases le_or_lt b 20000 with hb | hb
      · rw [hmid a ha (by linarith), hmid b (by linarith) hb]
        nlinarith
      · rw [hhigh b hb]
        exact (hbound a).2
  exact ⟨hlow, hhigh, hmid, fun Re _ => hbound Re, fun a b _ hab => hmono a b hab⟩

/-- Witness for C7 at Re = 5000: the hypotheses of the interpolation,
bound and monotonicity parts are discharged at concrete Reynolds
numbers. -/
theorem discharge_coefficient_witness :
    (2000 : ℝ) ≤ 5000 ∧ (5000 : ℝ) ≤ 20000 ∧ (0 : ℝ) ≤ 5000 ∧
    calculate_discharge_coefficient 5000 = 0.5 + (5000 - 2000) * (0.11 / 18000) ∧
    0.5 ≤ calculate_discharge_coefficient 5000 ∧
    calculate_discharge_coefficient 5000 ≤ calculate_discharge_coefficient 12000 := by
  refine ⟨by norm_num, by norm_num, by norm_num,
    discharge_coefficient_piecewise_bounded_monotone.2.2.1 5000 (by norm_num) (by norm_num),
    (discharge_coefficient_piecewise_bounded_monotone.2.2.2.1 5000 (by norm_num)).1,
    discharge_coefficient_piecewise_bounded_monotone.2.2.2.2 5000 12000 (by norm_num)
      (by norm_num)⟩

/-- C9: with zero deposits both removal statistics report zero instead of
dividing by zero, and with deposits present the reported percentage is
removed-count / total-count * 100 (and the analyzer rate is the same
quotient without the factor 100). -/
theorem removal_stats_empty_safe_and_ratio :
    deposit_stats_removal_percentage [] = 0 ∧
    analyze_removal_rate [] = 0 ∧
    (∀ deposits : List DepositPoint, 0 < deposits.length →
      deposit_stats_removal_percentage deposits =
        (deposits.countP (·.removed) : ℝ) / (deposits.length : ℝ) * 100 ∧
      analyze_removal_rate deposits =
        (deposits.countP (·.removed) : ℝ) / (deposits.length : ℝ)) := by
  refine ⟨by simp [deposit_stats_removal_percentage],
    by simp [analyze_removal_rate], ?_⟩
  intro deposits h
  constructor
  · unfold deposit_stats_removal_percentage
    rw [if_pos h]
  · unfold analyze_removal_rate
    rw [if_pos h]

/-- A removed and a surviving deposit used to evaluate the statistics at a
concrete deposit field. -/
noncomputable def removedProbe : DepositPoint where
  position := (0, 0, 0)
  thickness := 0.001
  strength := 1
  removed := true

/-- A deposit with its removed flag still false, companion of
removedProbe. -/
noncomputable def keptProbe : DepositPoint where
  position := (1, 0, 0)
  thickness := 0.001
  strength := 1
  removed := false

/-- Witness for C9 on the two-element field [removedProbe, keptProbe]:
one of two deposits removed, reported percentage 50. -/
theorem removal_stats_witness :
    0 < ([removedProbe, keptProbe] : List DepositPoint).length ∧
    deposit_stats_removal_percentage [removedProbe, keptProbe] = 50 ∧
    analyze_removal_rate [removedProbe, keptProbe] = 1 / 2 := by
  have h := removal_stats_empty_safe_and_ratio.2.2 [removedProbe, keptProbe]
    (by simp)
  have hcount : ([removedProbe, keptProbe] : List DepositPoint).countP
      (·.removed) = 1 := by
    simp [List.countP_cons, removedProbe, keptProbe]
  refine ⟨by simp, ?_, ?_⟩
  · rw [h.1, hcount]
    norm_num
  · rw [h.2, hcount]
    norm_num

/-- C5: one evaluate_impact call removes exactly those not-yet-removed
deposits that are strictly inside the 0.015 m impact radius and whose
linearly attenuated local energy strictly exceeds the
strength * (thickness / range_min) / (1 + moisture) threshold; deposits at
or beyond the radius, and deposits failing the energy test, are left
untouched, and all qualifying deposits are removed in the same call. -/
theorem check_impact_removes_exactly_qualifying :
    ∀ (deposits : List DepositPoint) (ppos pvel : ℝ × ℝ × ℝ) (mass : ℝ),
      List.Forall₂ (fun d d' : DepositPoint =>
          d'.removed = true ↔
            (d.removed = true ∨
              (distance3 ppos d.position < impact_radius ∧
                impactEnergy mass pvel *
                    (1 - distance3 ppos d.position / impact_radius) >
                  removalThreshold d)))
        deposits (check_impact deposits ppos pvel mass).1 := by
  intro deposits ppos pvel mass
  unfold check_impact
  rw [List.forall₂_map_right_iff]
  rw [List.forall₂_same]
  intro d _
  simp only [checkOne]
  split_ifs with h1 h2 h3 <;> simp_all

theorem checkOne_removed_mono (E : ℝ) (p : ℝ × ℝ × ℝ) (d : DepositPoint) :
    d.removed ≤ ((checkOne E p d).1).removed := by
  simp only [checkOne]
  split_ifs with h1 h2 h3 <;> simp_all

theorem check_impact_countP_mono (deposits : List DepositPoint)
    (ppos pvel : ℝ × ℝ × ℝ) (mass : ℝ) :
    deposits.countP (·.removed) ≤
      ((check_impact deposits ppos pvel mass).1).countP (·.removed) := by
  unfold check_impact
  rw [List.countP_map]
  apply List.countP_mono_left
  intro d _ hd
  have := checkOne_removed_mono (impactEnergy mass pvel) ppos d
  simp only [Function.comp] at *
  revert this hd
  cases d.removed <;> cases ((checkOne (impactEnergy mass pvel) ppos d).1).removed <;>
    simp

/-- A batch of evaluate_impact calls applied in sequence to a deposit
field, each call threading the updated field to the next. -/
noncomputable def evaluate_impact_seq
    (calls : List ((ℝ × ℝ × ℝ) × (ℝ × ℝ × ℝ) × ℝ)) (deposits : List DepositPoint) :
    List DepositPoint :=
  calls.foldl (fun ds c => (check_impact ds c.1 c.2.1 c.2.2).1) deposits

/-- C6: a single evaluate_impact call never lowers any deposit's removed
flag, so the removed-count is non-decreasing over one call and over any
sequence of calls. -/
theorem check_impact_removed_monotone :
    (∀ (deposits : List DepositPoint) (ppos pvel : ℝ × ℝ × ℝ) (mass : ℝ),
      List.Forall₂ (fun d d' : DepositPoint => d.removed ≤ d'.removed)
        deposits (check_impact deposits ppos pvel mass).1 ∧
      deposits.countP (·.removed) ≤
        ((check_impact deposits ppos pvel mass).1).countP (·.removed)) ∧
    (∀ (calls : List ((ℝ × ℝ × ℝ) × (ℝ × ℝ × ℝ) × ℝ))
        (deposits : List DepositPoint),
      deposits.countP (·.removed) ≤
        (evaluate_impact_seq calls deposits).countP (·.removed)) := by
  constructor
  · intro deposits ppos pvel mass
    constructor
    · unfold check_impact
      rw [List.forall₂_map_right_iff, List.forall₂_same]
      intro d _
      exact checkOne_removed_mono _ _ d
    · exact check_impact_countP_mono deposits ppos pvel mass
  · intro calls
    induction calls with
    | nil => intro deposits; simp [evaluate_impact_seq]
    | cons c rest ih =>
      intro deposits
      have h1 := check_impact_countP_mono deposits c.1 c.2.1 c.2.2
      have h2 := ih (check_impact deposits c.1 c.2.1 c.2.2).1
      calc deposits.countP (·.removed)
          ≤ ((check_impact deposits c.1 c.2.1 c.2.2).1).countP (·.removed) := h1
        _ ≤ (evaluate_impact_seq rest
              (check_impact deposits c.1 c.2.1 c.2.2).1).countP (·.removed) := h2
        _ = (evaluate_impact_seq (c :: rest) deposits).countP (·.removed) := by
              simp [evaluate_impact_seq]

/-- C10: deposit initialisation yields a deposit field exactly when the
first grid's plugged_deposit count is at most the number of holes the
ring-pattern generator actually placed (np.random.choice raises
otherwise), every cluster spawns between 5 and 14 points, and every
spawned point starts with removed = false. -/
theorem initialize_deposits_success_and_clusters :
    (∀ (hole_positions : List (ℝ × ℝ × ℝ)) (num_plugged : ℕ)
        (draws : ℕ → ClusterDraw),
      (initialize_deposits hole_positions num_plugged draws).isSome = true ↔
        num_plugged ≤ hole_positions.length) ∧
    (∀ (num_holes : ℕ) (radius z : ℝ) (num_plugged : ℕ)
        (draws : ℕ → ClusterDraw),
      (initialize_deposits
          ((generate_radial_pattern num_holes radius).map fun p => (p.1, p.2, z))
          num_plugged draws).isSome = true ↔
        num_plugged ≤ (generate_radial_pattern num_holes radius).length) ∧
    (∀ (x y z : ℝ) (size_seed : ℕ) (jitter : ℕ → ℝ × ℝ × ℝ)
        (thickness_draw strength_draw : ℕ → ℝ),
      5 ≤ (add_deposit_cluster x y z size_seed jitter thickness_draw
            strength_draw).length ∧
      (add_deposit_cluster x y z size_seed jitter thickness_draw
            strength_draw).length ≤ 14) ∧
    (∀ (hole_positions : List (ℝ × ℝ × ℝ)) (num_plugged : ℕ)
        (draws : ℕ → ClusterDraw),
      ((initialize_deposits hole_positions num_plugged draws).getD []).all
        (fun d => !d.removed) = true) := by
  have hsome : ∀ (hole_positions : List (ℝ × ℝ × ℝ)) (num_plugged : ℕ)
      (draws : ℕ → ClusterDraw),
      (initialize_deposits hole_positions num_plugged draws).isSome = true ↔
        num_plugged ≤ hole_positions.length := by
    intro hole_positions num_plugged draws
    unfold initialize_deposits
    split_ifs with h
    · simp [h]
    · simp
      omega
  refine ⟨hsome, ?_, ?_, ?_⟩
  · intro num_holes radius z num_plugged draws
    rw [hsome]
    rw [List.length_map]
  · intro x y z size_seed jitter thickness_draw strength_draw
    unfold add_deposit_cluster randint_5_15
    rw [List.length_map, List.length_range]
    have := Nat.mod_lt size_seed (show 0 < 10 by norm_num)
    omega
  · intro hole_positions num_plugged draws
    unfold initialize_deposits
    split_ifs with h
    · simp
    · rw [Option.getD_some, List.all_eq_true]
      intro d hd
      rw [List.mem_flatMap] at hd
      obtain ⟨k, _, hk⟩ := hd
      unfold add_deposit_cluster at hk
      rw [List.mem_map] at hk
      obtain ⟨i, _, hi⟩ := hk
      rw [← hi]
      rfl

/-! ### Helper lemmas for the particle_motion claims -/

theorem distance3_self (p : ℝ × ℝ × ℝ) : distance3 p p = 0 := by
  simp [distance3]

theorem check_impact_nil (ppos pvel : ℝ × ℝ × ℝ) (mass : ℝ) :
    check_impact [] ppos pvel mass = ([], false) := by
  simp [check_impact]

theorem check_deposit_impact_deposits (tr : Tracker)
    (p v : ℝ × ℝ × ℝ) (t : ℝ) :
    ((check_deposit_impact tr p v t).1).deposits =
      (check_impact tr.deposits p v tr.particle_mass).1 := by
  by_cases h : (check_impact tr.deposits p v tr.particle_mass).2
  · simp [check_deposit_impact, h]
  · simp [check_deposit_impact, h]

theorem check_deposit_impact_impacts (tr : Tracker)
    (p v : ℝ × ℝ × ℝ) (t : ℝ) :
    ((check_deposit_impact tr p v t).1).impacts =
      if (check_impact tr.deposits p v tr.particle_mass).2 then
        tr.impacts ++ [p]
      else tr.impacts := by
  by_cases h : (check_impact tr.deposits p v tr.particle_mass).2
  · simp [check_deposit_impact, h]
  · simp [check_deposit_impact, h]

theorem particle_motion_tracker (ch : Chamber) (tr : Tracker)
    (state : ℝ × ℝ × ℝ × ℝ × ℝ × ℝ) (t : ℝ) :
    (particle_motion ch tr state t).2 = (bounce_step ch tr state t).1 := rfl

theorem bounce_step_approaching (ch : Chamber) (tr : Tracker)
    (x y z vx vy vz t : ℝ)
    (h1 : z > ch.grid_position_0 * ch.chamber_height / 1000) (h2 : vz < 0) :
    (bounce_step ch tr (x, y, z, vx, vy, vz) t).1 =
      { (check_deposit_impact tr (x, y, z) (vx, vy, vz) t).1 with
          impacts := ((check_deposit_impact tr (x, y, z) (vx, vy, vz) t).1).impacts
            ++ [(x, y, z)],
          impact_times :=
            ((check_deposit_impact tr (x, y, z) (vx, vy, vz) t).1).impact_times
            ++ [t],
          impact_energies :=
            ((check_deposit_impact tr (x, y, z) (vx, vy, vz) t).1).impact_energies
            ++ [0.5 * tr.particle_mass * Real.sqrt (vx ^ 2 + vy ^ 2 + vz ^ 2) ^ 2] } := by
  unfold bounce_step
  dsimp only
  rw [if_pos ⟨h1, h2⟩]
  simp only [pyTruthy, if_true]

theorem particle_motion_deriv (ch : Chamber) (tr : Tracker)
    (state : ℝ × ℝ × ℝ × ℝ × ℝ × ℝ) (t : ℝ) :
    (particle_motion ch tr state t).1 =
      drag_deriv ch tr state (bounce_step ch tr state t).2 := rfl

theorem defaultChamber_grid_height :
    defaultChamber.grid_position_0 * defaultChamber.chamber_height / 1000 = 9.6 := by
  simp [defaultChamber, GRID_POSITION_0, CHAMBER_HEIGHT]
  norm_num

/-- C1: the grid-contact branch logs an ImpactRecord even though the
deposit-impact evaluation reported that nothing was removed.  With an
empty deposit field and the particle above the first grid moving
downward, a single derivative evaluation appends one impact to the
run-scoped log: check_deposit_impact returns the tuple (False, [0, 0, 0]),
and Python's `if impact:` on that non-empty tuple is always true. -/
theorem empty_deposit_field_logs_impact :
    walnutTracker.deposits = [] ∧ walnutTracker.impacts = [] ∧
    ((particle_motion defaultChamber walnutTracker (0, 0, 10, 0, 0, -5) 0).2).impacts
        = [(0, 0, 10)] := by
  refine ⟨rfl, rfl, ?_⟩
  rw [particle_motion_tracker]
  rw [bounce_step_approaching defaultChamber walnutTracker 0 0 10 0 0 (-5) 0
    (by rw [defaultChamber_grid_height]; norm_num) (by norm_num)]
  rw [check_deposit_impact_impacts]
  have hnil : walnutTracker.deposits = [] := rfl
  rw [hnil, check_impact_nil]
  rfl

theorem strengthZero_checkOne :
    checkOne (impactEnergy (particleMass 640.7 0.005) (0, 0, -5)) (0, 0, 9.61)
        strengthZeroDeposit =
      ({ strengthZeroDeposit with removed := true }, true) := by
  have hm : (0 : ℝ) < particleMass 640.7 0.005 := by
    unfold particleMass
    positivity
  have hE : (0 : ℝ) < impactEnergy (particleMass 640.7 0.005) (0, 0, -5) := by
    unfold impactEnergy
    nlinarith [hm]
  have hdist : distance3 (0, 0, 9.61) strengthZeroDeposit.position = 0 := by
    have : strengthZeroDeposit.position = ((0 : ℝ), (0 : ℝ), (9.61 : ℝ)) := rfl
    rw [this, distance3_self]
  have hthr : removalThreshold strengthZeroDeposit = 0 := by
    simp [removalThreshold, strengthZeroDeposit]
  unfold checkOne
  rw [show strengthZeroDeposit.removed = false from rfl]
  rw [if_neg (by simp)]
  rw [hdist]
  rw [if_pos (by rw [impact_radius]; norm_num)]
  rw [hthr]
  rw [if_pos (by rw [impact_radius]; norm_num; linarith [hE])]

theorem strengthZero_check_impact :
    check_impact [strengthZeroDeposit] (0, 0, 9.61) (0, 0, -5)
        (particleMass 640.7 0.005) =
      ([{ strengthZeroDeposit with removed := true }], true) := by
  unfold check_impact
  dsimp only
  rw [List.map_cons, List.map_nil, List.any_cons, List.any_nil]
  rw [strengthZero_checkOne]
  simp

/-- C2: with restitution 0.7 and a strength-0 deposit directly on the
particle's path, a single removing derivative evaluation marks the
deposit removed but appends TWO ImpactRecords, not one:
check_deposit_impact logs the impact when the removal is reported, and
particle_motion logs the same impact again inside the bounce branch. -/
theorem strength_zero_deposit_double_logged :
    guardTracker.restitution_coeff = 0.7 ∧
    guardTracker.impacts = [] ∧
    ((particle_motion defaultChamber guardTracker (0, 0, 9.61, 0, 0, -5) 0).2).impacts
        = [(0, 0, 9.61), (0, 0, 9.61)] ∧
    (((particle_motion defaultChamber guardTracker
        (0, 0, 9.61, 0, 0, -5) 0).2).deposits.map fun d => d.removed) = [true] := by
  have hdep : guardTracker.deposits = [strengthZeroDeposit] := rfl
  have hmass : guardTracker.particle_mass = particleMass 640.7 0.005 := rfl
  refine ⟨rfl, rfl, ?_, ?_⟩
  · rw [particle_motion_tracker]
    rw [bounce_step_approaching defaultChamber guardTracker 0 0 9.61 0 0 (-5) 0
      (by rw [defaultChamber_grid_height]; norm_num) (by norm_num)]
    rw [check_deposit_impact_impacts]
    rw [hdep, hmass, strengthZero_check_impact]
    rfl
  · rw [particle_motion_tracker]
    rw [bounce_step_approaching defaultChamber guardTracker 0 0 9.61 0 0 (-5) 0
      (by rw [defaultChamber_grid_height]; norm_num) (by norm_num)]
    show ((check_deposit_impact guardTracker (0, 0, 9.61) (0, 0, -5) 0).1).deposits.map
        (fun d => d.removed) = [true]
    rw [check_deposit_impact_deposits]
    rw [hdep, hmass, strengthZero_check_impact]
    rfl

/-- C3: at a kinematic state whose relative velocity with respect to the
ambient flow is exactly zero, the drag-coefficient branch computes
24 / Re_p with Re_p = 0: a division by zero (inf, then NaN accelerations,
in NumPy) instead of a special-cased zero-drag result.  The derivative
evaluation yields no well-defined value, modelled none. -/
theorem zero_relative_velocity_drag_fault :
    (particle_motion defaultChamber walnutTracker
        (0, 0, 10, 0, 0, INLET_VELOCITY) 0).1 = none := by
  rw [particle_motion_deriv]
  have hb : (bounce_step defaultChamber walnutTracker
      (0, 0, 10, 0, 0, INLET_VELOCITY) 0).2 = (0, 0, INLET_VELOCITY) := by
    unfold bounce_step
    dsimp only
    rw [if_neg]
    intro hcon
    have := hcon.2
    rw [INLET_VELOCITY] at this
    norm_num at this
  rw [hb]
  unfold drag_deriv
  dsimp only
  have hrel : INLET_VELOCITY - defaultChamber.inlet_velocity = 0 := by
    simp [defaultChamber]
  rw [hrel]
  have hsqrt : Real.sqrt ((0 : ℝ) ^ 2 + 0 ^ 2 + 0 ^ 2) = 0 := by
    norm_num
  rw [hsqrt]
  rw [mul_zero, zero_mul, zero_div]
  rw [if_pos (by norm_num), if_pos rfl]
  rfl

/-- C4: the spiral strategy computes
vz = -sqrt(2 * GRAVITY * drop_height) with the signed constant
GRAVITY = -9.81, so the sqrt argument is negative (2 * -9.81 * 2.4 for the
default chamber) and vz is NaN (modelled none) for every starting angle -
not the finite downward ballistic speed. -/
theorem spiral_vz_nan (angle : ℝ) :
    ((generate_initial_conditions_spiral defaultChamber angle).2).2.2 = none := by
  have harg : 2 * GRAVITY * (defaultChamber.chamber_height / 1000 -
      defaultChamber.grid_position_0 * defaultChamber.chamber_height / 1000) < 0 := by
    simp [defaultChamber, CHAMBER_HEIGHT, GRID_POSITION_0, GRAVITY]
    norm_num
  unfold generate_initial_conditions_spiral
  dsimp only
  rw [pySqrt, if_pos harg]
  rfl

end OrificeChamber
